import Mathlib

/-!
Shallow embedding of the acquisition-and-delivery pipeline of src/bot.py
(a Telegram media-downloader bot built on yt-dlp).

Conventions of the embedding:
* Python strings are Lean String values; string helpers below operate on the
  underlying character list so that their behaviour is transparent.
* Python None / falsy values of string-valued fields are modelled as
  Option String together with the truthiness test pyTruthy (none and the
  empty string are falsy, everything else truthy), mirroring how the source
  tests these fields with plain if statements.
* The filesystem is the list of full paths of the files that currently exist
  in the storage root; os.listdir on the storage root returns the basenames
  of those entries (the pipeline only ever creates files directly under the
  storage root).
* Telegram and yt-dlp calls are external; their outcomes are supplied by an
  environment record, and each call the code performs is recorded as an
  effect in a trace.  A Python exception that escapes a function is an
  Except.error result.
-/

set_option autoImplicit false

namespace Bot

/-! ### String helpers (character-list based) -/

/-- Occurrence test on character lists: pat is a contiguous sublist of s. -/
def charsContain (pat : List Char) : List Char → Bool
  | [] => pat.isEmpty
  | c :: rest => pat.isPrefixOf (c :: rest) || charsContain pat rest

/-- Substring test: pat occurs somewhere inside s (Python in operator). -/
def strContains (s pat : String) : Bool :=
  charsContain pat.toList s.toList

/-- Python str.startswith for a single pattern. -/
def strStartsWith (s pre : String) : Bool :=
  pre.toList.isPrefixOf s.toList

/-- Drop the first n characters of a string. -/
def strDrop (s : String) (n : Nat) : String :=
  String.mk (s.toList.drop n)

/-- Replace every (leftmost, non-overlapping) occurrence of pat by rep,
as Python str.replace does; an empty pattern is treated as a no-op
(the source only ever replaces the non-empty placeholder).  The fuel
argument makes the recursion structural; every step consumes at least one
character, so fuel equal to the length of the list never runs out. -/
def replaceCharsAux (pat rep : List Char) : Nat → List Char → List Char
  | 0, s => s
  | _ + 1, [] => []
  | fuel + 1, c :: rest =>
    if pat ≠ [] ∧ pat.isPrefixOf (c :: rest) then
      rep ++ replaceCharsAux pat rep fuel ((c :: rest).drop pat.length)
    else
      c :: replaceCharsAux pat rep fuel rest

/-- String version of replaceCharsAux, with enough fuel for the whole
string. -/
def strReplace (s pat rep : String) : String :=
  String.mk (replaceCharsAux pat.toList rep.toList s.toList.length s.toList)

/-- Split a character list at every occurrence of the separator character
(Python str.split with a one-character separator). -/
def splitOnChar (c : Char) : List Char → List (List Char)
  | [] => [[]]
  | x :: xs =>
    let r := splitOnChar c xs
    if x = c then [] :: r
    else
      match r with
      | [] => [[x]]
      | y :: ys => (x :: y) :: ys

/-- Python str.split(sep, 1): the part before the first separator and,
when the separator occurs, the remainder after it. -/
def splitOnceOn (c : Char) (s : String) : String × Option String :=
  let l := s.toList
  let pre := l.takeWhile (fun x => x ≠ c)
  if pre.length = l.length then (String.mk pre, none)
  else (String.mk pre, some (String.mk (l.drop (pre.length + 1))))

/-- Strip leading and trailing spaces (Python str.strip restricted to the
space character, the only whitespace arising in the mirrored strings). -/
def stripSpaces (s : String) : String :=
  String.mk (((s.toList.dropWhile (fun c => c = ' ')).reverse.dropWhile
      (fun c => c = ' ')).reverse)

/-- Part of the path after the last slash (os.path.basename). -/
def basename (p : String) : String :=
  String.mk ((p.toList.reverse.takeWhile (fun c => c ≠ '/')).reverse)

/-- Emptiness of a string, via its character list. -/
def strIsEmpty (s : String) : Bool :=
  s.toList.isEmpty

/-- Python truthiness of an optional string: None and the empty string are
falsy. -/
def pyTruthy : Option String → Bool
  | none => false
  | some s => !(strIsEmpty s)

/-- Python x or y on optional strings: x when truthy, else y. -/
def pyOr (a b : Option String) : Option String :=
  if pyTruthy a then a else b

/-- Python str(value) on an optional string: None renders as "None"
(this is what an f-string would interpolate). -/
def pyStr (o : Option String) : String :=
  match o with
  | none => "None"
  | some s => s

/-! ### Data model -/

/-- The fields of the yt-dlp info dictionary that download_media reads.
requested_downloads lists, for each entry of the download manifest, the
value of its filepath key (none when the key is absent or falsy).
The result is untrusted: every field may be absent. -/
structure InfoDict where
  requested_downloads : List (Option String)
  filepath : Option String
  filename : Option String
  ext : Option String
  title : Option String
  duration : Option Nat
  width : Option Nat
  height : Option Nat
deriving DecidableEq, Repr

/-- An info dictionary with every field absent. -/
def emptyInfo : InfoDict :=
  { requested_downloads := []
    filepath := none
    filename := none
    ext := none
    title := none
    duration := none
    width := none
    height := none }

/-- Media kind used to pick the transport verb. -/
inductive FileType where
  | video
  | audio
deriving DecidableEq, Repr

/-! ### Storage root and output template -/

/-- DOWNLOAD_PATH with its default value (env lookup with default
"./downloads"). -/
def DOWNLOAD_PATH : String := "./downloads"

/-- The placeholder yt-dlp substitutes with the real extension. -/
def extPlaceholder : String := "%(ext)s"

/-- The unique output template built at the start of download_media:
os.path.join(DOWNLOAD_PATH, uuid ++ ".%(ext)s"). -/
def tmplOf (uuid : String) : String :=
  DOWNLOAD_PATH ++ "/" ++ uuid ++ ".%(ext)s"

/-- os.listdir on the storage root: the basenames of the filesystem entries
that live directly under root. -/
def listdir (fs : List String) (root : String) : List String :=
  fs.filterMap (fun p =>
    if strStartsWith p (root ++ "/") = true then
      some (strDrop p (root ++ "/").length)
    else none)

/-- The unique prefix used by the fallback scan:
os.path.basename(output_filename).split(".")[0]. -/
def uuidPartOf (tmpl : String) : String :=
  String.mk ((basename tmpl).toList.takeWhile (fun c => c ≠ '.'))

/-! ### Output Locator (the robust file path finding block of
download_media, src/bot.py lines 134-170) -/

/-- Candidate selection of the Output Locator, before the final existence
check: step 1 reads the manifest (requested_downloads[0].get("filepath")),
step 2 falls back to the top-level filepath or _filename field, step 3
reconstructs from the template and, when the template still contains the
unresolved placeholder or equals the raw template, scans the storage root
for the first entry whose name starts with the unique prefix. -/
def locateCandidate (info : Option InfoDict) (fs : List String)
    (root tmpl : String) : Option String :=
  let a1 : Option String :=
    match info with
    | none => none
    | some i =>
      match i.requested_downloads with
      | [] => none
      | d :: _ => d
  let a2 : Option String :=
    if pyTruthy a1 then a1
    else
      match info with
      | none => a1
      | some i => pyOr i.filepath i.filename
  if pyTruthy a2 then a2
  else
    match info with
    | none => a2
    | some i =>
      if strIsEmpty tmpl then a2
      else
        let guessed :=
          if strContains tmpl extPlaceholder ∧ pyTruthy i.ext then
            strReplace tmpl extPlaceholder (pyStr i.ext)
          else tmpl
        if strContains guessed extPlaceholder ∨ guessed = tmpl then
          match (listdir fs root).find?
              (fun f => strStartsWith f (uuidPartOf tmpl)) with
          | some f => some (root ++ "/" ++ f)
          | none => a2
        else if guessed ∈ fs then some guessed
        else a2

/-- The Output Locator: the selected candidate must be truthy and exist,
otherwise FileNotFoundError is raised (modelled as Except.error). -/
def locate (info : Option InfoDict) (fs : List String)
    (root tmpl : String) : Except Unit String :=
  match locateCandidate info fs root tmpl with
  | none => Except.error ()
  | some p =>
    if strIsEmpty p then Except.error ()
    else if p ∈ fs then Except.ok p
    else Except.error ()

/-! ### Quality-choice format spec (button_handler, yt_quality branch) -/

/-- The yt-dlp format spec the quality-choice handler builds for a chosen
quality ceiling (the f-string of src/bot.py line 484). -/
def buildQualityFormat (quality : String) : String :=
  "bestvideo[height<=" ++ quality ++ "][ext=mp4]+bestaudio[ext=m4a]" ++
    "/bestvideo[height<=" ++ quality ++ "]+bestaudio" ++
    "/best[height<=" ++ quality ++ "]" ++
    "/best"

/-- The ordered preference list of a yt-dlp format spec: alternatives are
separated by the slash character, first satisfiable alternative wins. -/
def formatAlternatives (spec : String) : List String :=
  (splitOnChar '/' spec.toList).map String.mk

/-- Parse a digit string into a number. -/
def parseDigits (l : List Char) : Nat :=
  l.foldl (fun n c => n * 10 + (c.toNat - 48)) 0

/-- All height ceilings declared by an alternative: the numbers following
each occurrence of the height-at-most filter. -/
def heightCapsAux : List Char → List Nat
  | [] => []
  | c :: rest =>
    if ("[height<=".toList).isPrefixOf (c :: rest) then
      parseDigits (((c :: rest).drop 9).takeWhile Char.isDigit)
        :: heightCapsAux rest
    else heightCapsAux rest

/-- Height ceilings of one alternative of a format spec. -/
def altHeightCaps (a : String) : List Nat :=
  heightCapsAux a.toList

/-- Whether an alternative demands an exact mp4 container match. -/
def altRequiresMp4 (a : String) : Bool :=
  strContains a "[ext=mp4]"

/-- Constraint strength of an alternative: one point for the exact-container
demand, one point for carrying any height ceiling.  A later alternative
degrading monotonically means this level never increases along the list. -/
def altLevel (a : String) : Nat :=
  (if altRequiresMp4 a then 1 else 0) +
    (if altHeightCaps a = [] then 0 else 1)

/-- The quality ceilings offered by the quality keyboard. -/
def qualityChoices : List Nat := [360, 480, 720, 1080]

/-- A list of numbers never increases from one element to the next. -/
def nonIncreasing : List Nat → Bool
  | [] => true
  | [_] => true
  | a :: b :: rest => Nat.ble b a && nonIncreasing (b :: rest)

/-! ### Media kind inference (src/bot.py line 174) -/

/-- file_type is inferred from the format spec alone:
format_options.get("format", "").startswith(("bv", "bestvideo", "mp4")). -/
def inferFileType (fmt : String) : FileType :=
  if strStartsWith fmt "bv" || strStartsWith fmt "bestvideo"
      || strStartsWith fmt "mp4" then
    FileType.video
  else FileType.audio

/-! ### Effects and state -/

/-- Observable calls the pipeline makes.  deleteOriginalMsg is the deletion
of the user's original request message: the constructor exists so that
statements can talk about that call, and the model never emits it because
src/bot.py contains no such call. -/
inductive Eff where
  | editStatus (text : String)
  | sendAudioVerb
  | sendVideoVerb
  | deleteStatusMsg
  | deleteOriginalMsg
  | sendNewMessage (text : String)
  | cleanupCall (path : Option String)
  | removeFile (path : String)
  | answerQuery
  | editButtonMsg (text : String)
  | showQualityKeyboard
  | deleteButtonMsg
  | download (url : String) (fmt : String)
deriving DecidableEq, Repr

/-- Mutable state the pipeline touches: the storage root contents and the
per-session processing / uploading flags held in context.user_data. -/
structure PipeState where
  fs : List String
  processing : Bool
  uploading : Bool
deriving DecidableEq, Repr

/-- Recognizer for cleanup invocations in a trace. -/
def isCleanupCall : Eff → Bool
  | Eff.cleanupCall _ => true
  | _ => false

/-- Recognizer for actual file removals in a trace. -/
def isRemoveFile : Eff → Bool
  | Eff.removeFile _ => true
  | _ => false

/-! ### cleanup_file (src/bot.py lines 59-66) -/

/-- os.remove: erases the path from the filesystem, or raises OSError
(the failure is injected by the caller's environment). -/
def osRemove (fs : List String) (p : String) (fails : Bool) :
    Except String (List String) :=
  if fails then Except.error ("OSError removing " ++ p)
  else Except.ok (fs.erase p)

/-- cleanup_file: removes the file if the path is truthy and the file
exists; an OSError from the removal is caught and logged.  The result is
the new filesystem, the removal effects performed, and the exception
outcome of the call (always ok: the only raising operation is wrapped in
the except OSError handler). -/
def cleanup_file (path : Option String) (fs : List String)
    (removeFails : Bool) : List String × List Eff × Except String Unit :=
  match path with
  | none => (fs, [], Except.ok ())
  | some p =>
    if strIsEmpty p then (fs, [], Except.ok ())
    else if p ∈ fs then
      match osRemove fs p removeFails with
      | Except.ok fs' => (fs', [Eff.removeFile p], Except.ok ())
      | Except.error _ => (fs, [], Except.ok ())
    else (fs, [], Except.ok ())

/-! ### Activity Signaler (send_typing_action lines 46-50 and
send_upload_action lines 52-57) -/

/-- One observed run of a signaler loop.  Each element of the schedule is
one loop iteration: the value the flag read returns, paired with the
outcome of the send_chat_action call that would follow.  The loop reads
the flag first; while it is true it emits one indicator and sleeps, and
the body contains no exception handler, so a failing emit terminates the
loop with that exception.  The result counts the emit attempts and gives
the exception outcome of the coroutine. -/
def signalerRun : List (Bool × Except String Unit) → Nat × Except String Unit
  | [] => (0, Except.ok ())
  | (flag, emit) :: rest =>
    if flag then
      match emit with
      | Except.ok _ =>
        let r := signalerRun rest
        (r.1 + 1, r.2)
      | Except.error e => (1, Except.error e)
    else (0, Except.ok ())

/-! ### User-facing texts (emoji prefixes of the source elided) -/

def downloadingText : String := "Downloading..."
def tooLargeText : String := "Error: File is too large for Telegram."
def timedOutText : String :=
  "Error: Upload timed out. File might be too large or network is slow."
def sendFailedText : String := "Error sending file. Please try again later."
def fnfText : String :=
  "Error: Could not find the downloaded file after processing. Please try again."
def unexpectedText : String :=
  "An unexpected server error occurred. Please try again later."
def dlUnsupportedText : String := "Download failed: Unsupported URL or format."
def dlExtractText : String :=
  "Download failed: Could not extract information from the link."
def dlUnavailableText : String := "Download failed: Video is unavailable."
def dlGenericText : String := "Download failed. Please check the link."
def expiredText : String :=
  "Error: Could not find the original YouTube URL. Session might have expired. Please send the link again."
def editFailureMsg : String := "edit of status message raised"
def sendMessageFailureMsg : String := "send_message raised"

/-- Status text of the upload phase: f-string Uploading file_type. -/
def uploadingText (ft : FileType) : String :=
  "Uploading " ++ (match ft with
    | FileType.video => "video"
    | FileType.audio => "audio") ++ "..."

/-- Classification of a send failure by message content
(src/bot.py lines 215-221). -/
def classifySendError (e : String) : String :=
  if strContains e "Request Entity Too Large" then tooLargeText
  else if strContains e "Timed out" then timedOutText
  else sendFailedText

/-- Classification of a yt-dlp DownloadError by message content
(src/bot.py lines 236-246): the part after the last colon is stripped and
matched against known fragments. -/
def classifyDownloadError (msg : String) : String :=
  let parts := (splitOnChar ':' msg.toList).map String.mk
  let simple :=
    if parts.length > 1 then stripSpaces (parts.getLastD msg) else msg
  if strContains simple "Unsupported URL" then dlUnsupportedText
  else if strContains simple "Unable to extract" then dlExtractText
  else if strContains simple "Video unavailable" then dlUnavailableText
  else dlGenericText

/-! ### Environment: outcomes of the external calls one run performs -/

/-- Injected outcomes for one execution of download_media.  fsAfterAcq is
the storage-root contents once the engine call returns or raises (the
engine may leave partial files behind on failure; the adapter never cleans
up).  Each Bool tells whether the corresponding Telegram call succeeds;
sendErr and deleteStatusErr carry the exception text when the send of the
file or the deletion of the status message raises. -/
structure Env where
  fsAfterAcq : List String
  acqResult : Except String (Option InfoDict)
  editDownloadingOk : Bool
  editUploadingOk : Bool
  sendErr : Option String
  deleteStatusErr : Option String
  editSendFailOk : Bool
  editDlErrOk : Bool
  editFnfOk : Bool
  editUnexpectedOk : Bool
  sendNewMsgOk : Bool
  removeFails : Bool
deriving Repr

/-- An environment in which every external call succeeds and the
acquisition fails; concrete scenarios override the relevant fields. -/
def baseEnv : Env :=
  { fsAfterAcq := []
    acqResult := Except.error "ERROR: generic"
    editDownloadingOk := true
    editUploadingOk := true
    sendErr := none
    deleteStatusErr := none
    editSendFailOk := true
    editDlErrOk := true
    editFnfOk := true
    editUnexpectedOk := true
    sendNewMsgOk := true
    removeFails := false }

/-! ### Delivery Step (src/bot.py lines 186-231: the try / except / finally
around the send call) -/

/-- The delivery step: send the file with the verb matching the media kind;
on success delete the transient status message (still inside the try, so a
failing delete is handled by the same except clause); on failure classify
the exception text and edit the status message to the classified
explanation - that edit is not guarded, so when it raises the exception
escapes the delivery step; the finally clause always clears the uploading
flag. -/
def deliver_step (env : Env) (ft : FileType) (st : PipeState) :
    PipeState × List Eff × Except String Unit :=
  let sendEff := match ft with
    | FileType.video => Eff.sendVideoVerb
    | FileType.audio => Eff.sendAudioVerb
  let inner : List Eff × Except String Unit :=
    match env.sendErr with
    | some e => ([sendEff], Except.error e)
    | none =>
      match env.deleteStatusErr with
      | none => ([sendEff, Eff.deleteStatusMsg], Except.ok ())
      | some e => ([sendEff], Except.error e)
  let handled : List Eff × Except String Unit :=
    match inner.2 with
    | Except.ok _ => (inner.1, Except.ok ())
    | Except.error e =>
      if env.editSendFailOk then
        (inner.1 ++ [Eff.editStatus (classifySendError e)], Except.ok ())
      else (inner.1, Except.error editFailureMsg)
  ({ st with uploading := false }, handled.1, handled.2)

/-! ### The main try block, its except clauses and the finally clause of
download_media (src/bot.py lines 94-281) -/

/-- Which except clause of download_media the main try block reaches. -/
inductive TryOutcome where
  | ok
  | dlError (msg : String)
  | fnf
  | generic
deriving DecidableEq, Repr

/-- Result of the main try block: state reached, effects performed, the
download path determined so far (the variable downloaded_file_path, still
none until the locator succeeds), and the outcome. -/
structure BodyOut where
  st : PipeState
  effs : List Eff
  dlPath : Option String
  outcome : TryOutcome
deriving Repr

/-- The main try block (lines 126-231): edit the status message to
Downloading, run the engine (the storage root now holds fsAfterAcq), clear
the processing flag on engine success, locate the output file, infer the
media kind from the format spec, edit the status to Uploading, set the
uploading flag and run the delivery step.  An exception at any point maps
to the outcome of the except clause that catches it. -/
def main_body (env : Env) (fmt : String) (st1 : PipeState) (tmpl : String) :
    BodyOut :=
  if env.editDownloadingOk = false then
    { st := st1, effs := [], dlPath := none, outcome := TryOutcome.generic }
  else
    let e0 := [Eff.editStatus downloadingText]
    let st2 := { st1 with fs := env.fsAfterAcq }
    match env.acqResult with
    | Except.error m =>
      { st := st2, effs := e0, dlPath := none, outcome := TryOutcome.dlError m }
    | Except.ok info =>
      let st3 := { st2 with processing := false }
      match locate info st3.fs DOWNLOAD_PATH tmpl with
      | Except.error _ =>
        { st := st3, effs := e0, dlPath := none, outcome := TryOutcome.fnf }
      | Except.ok p =>
        let ft := inferFileType fmt
        if env.editUploadingOk = false then
          { st := st3, effs := e0, dlPath := some p
            outcome := TryOutcome.generic }
        else
          let e1 := e0 ++ [Eff.editStatus (uploadingText ft)]
          let st4 := { st3 with uploading := true }
          let d := deliver_step env ft st4
          { st := d.1, effs := e1 ++ d.2.1, dlPath := some p
            outcome := match d.2.2 with
              | Except.ok _ => TryOutcome.ok
              | Except.error _ => TryOutcome.generic }

/-- The except clauses of download_media (lines 234-270).  The status-message
edits of the DownloadError and FileNotFoundError handlers are guarded and
their failures only logged; in the catch-all handler a failing edit falls
back to sending a fresh message when the original message id is known, and
that send is not guarded, so its failure escapes download_media. -/
def handle_outcome (env : Env) (msgId : Option Nat) (oc : TryOutcome) :
    List Eff × Except String Unit :=
  match oc with
  | TryOutcome.ok => ([], Except.ok ())
  | TryOutcome.dlError m =>
    if env.editDlErrOk then
      ([Eff.editStatus (classifyDownloadError m)], Except.ok ())
    else ([], Except.ok ())
  | TryOutcome.fnf =>
    if env.editFnfOk then ([Eff.editStatus fnfText], Except.ok ())
    else ([], Except.ok ())
  | TryOutcome.generic =>
    if env.editUnexpectedOk then
      ([Eff.editStatus unexpectedText], Except.ok ())
    else
      match msgId with
      | none => ([], Except.ok ())
      | some _ =>
        if env.sendNewMsgOk then
          ([Eff.sendNewMessage unexpectedText], Except.ok ())
        else ([], Except.error sendMessageFailureMsg)

/-- download_media: set the processing flag, build the unique output
template, run the main try block, run the matching except clause, and run
the finally clause, which unconditionally clears both flags and calls
cleanup_file on the determined download path.  The model starts after the
initial status message has been posted; msgId is the id of the message the
run replies to (none when the pseudo update carries no original message). -/
def download_media (env : Env) (msgId : Option Nat) (fmt uuid : String)
    (st0 : PipeState) : PipeState × List Eff × Except String Unit :=
  let st1 : PipeState := { st0 with processing := true }
  let b := main_body env fmt st1 (tmplOf uuid)
  let h := handle_outcome env msgId b.outcome
  let st2 : PipeState := { b.st with processing := false, uploading := false }
  let c := cleanup_file b.dlPath st2.fs env.removeFails
  ({ st2 with fs := c.1 },
    b.effs ++ h.1 ++ (Eff.cleanupCall b.dlPath :: c.2.1),
    h.2)

/-! ### button_handler (src/bot.py lines 377-500) -/

/-- Injected outcomes for the Telegram calls button_handler performs. -/
structure BHEnv where
  editExpiredOk : Bool
  editPrepOk : Bool
  editQualityKbOk : Bool
  deleteButtonOk : Bool
deriving Repr

/-- The format spec of the audio profile (SoundCloud and the mp3 choice). -/
def audioFormatSpec : String := "bestaudio/best"

/-- button_handler: answer the callback query, split the callback data once
at the separator into action and value, and look up the pending YouTube
URL of the session.  Without a stored URL the handler reports the
session-expired error (the edit is guarded) and returns; acquisition is
the Eff.download effect and is never reached on that path.  With a URL:
the mp3 choice runs the audio download and in a finally clause clears the
stored URL and best-effort deletes the button message; the mp4 choice
shows the quality keyboard and keeps the URL (clearing it when the edit
fails); a quality choice runs the video download with the format spec
built from the chosen ceiling, then clears the URL and best-effort deletes
the button message.  The result is the new pending URL and the effect
trace. -/
def button_handler (cbData : String) (pending : Option String)
    (env : BHEnv) : Option String × List Eff :=
  let parts := splitOnceOn '|' cbData
  let action := parts.1
  let value := parts.2
  let e0 := [Eff.answerQuery]
  match pending with
  | none =>
    (none, e0 ++ (if env.editExpiredOk then [Eff.editButtonMsg expiredText]
      else []))
  | some url =>
    if action = "yt_format" then
      if value = some "mp3" then
        let ePrep := if env.editPrepOk then
            [Eff.editButtonMsg "Preparing MP3 download..."] else []
        let eDel := if env.deleteButtonOk then [Eff.deleteButtonMsg] else []
        (none, e0 ++ ePrep ++ [Eff.download url audioFormatSpec] ++ eDel)
      else if value = some "mp4" then
        if env.editQualityKbOk then (some url, e0 ++ [Eff.showQualityKeyboard])
        else (none, e0)
      else (some url, e0)
    else if action = "yt_quality" then
      let q := pyStr value
      let ePrep := if env.editPrepOk then
          [Eff.editButtonMsg ("Preparing " ++ q ++ "p MP4 download...")]
        else []
      let eDel := if env.deleteButtonOk then [Eff.deleteButtonMsg] else []
      (none, e0 ++ ePrep ++ [Eff.download url (buildQualityFormat q)] ++ eDel)
    else (some url, e0)

/-! ## Claim theorems -/

/-- C10: cleanup_file is total: a falsy or absent path, a path that does
not exist, and a path whose removal raises OSError all return normally
(the exception outcome is ok on every input, since the only raising call
sits inside the except OSError handler); in the first three situations the
filesystem is untouched, and a removal that raises OSError leaves the file
in place. -/
theorem cleanup_file_total (path : Option String) (fs : List String)
    (removeFails : Bool) :
    (cleanup_file path fs removeFails).2.2 = Except.ok () ∧
    (path = none → (cleanup_file path fs removeFails).1 = fs) ∧
    (∀ p, path = some p → p ∉ fs →
      (cleanup_file path fs removeFails).1 = fs) ∧
    (∀ p, path = some p → removeFails = true →
      (cleanup_file path fs removeFails).1 = fs) := by
  rcases path with _ | p
  · simp [cleanup_file]
  · cases he : strIsEmpty p <;> by_cases hm : p ∈ fs <;>
      cases removeFails <;> simp_all [cleanup_file, osRemove]

/-- Witness for cleanup_file_total: a removal that raises OSError on an
existing file still returns normally and leaves the filesystem unchanged. -/
theorem cleanup_file_total_witness :
    (cleanup_file (some "./downloads/a.mp3") ["./downloads/a.mp3"] true).2.2
        = Except.ok () ∧
    (cleanup_file (some "./downloads/a.mp3") ["./downloads/a.mp3"] true).1
        = ["./downloads/a.mp3"] := by
  refine ⟨(cleanup_file_total (some "./downloads/a.mp3")
    ["./downloads/a.mp3"] true).1, ?_⟩
  exact (cleanup_file_total (some "./downloads/a.mp3")
    ["./downloads/a.mp3"] true).2.2.2 "./downloads/a.mp3" rfl rfl

/-- C9 counterexample: an emit failure is not swallowed by the signaler
loop: the coroutine ends with the exception of the failed
send_chat_action call instead of returning normally, because the loop body
of send_typing_action / send_upload_action contains no exception handler. -/
theorem signaler_emit_failure_cex :
    signalerRun [(true, Except.error "network error")] =
      (1, Except.error "network error") ∧
    (signalerRun [(true, Except.error "network error")]).2 ≠
      Except.ok () := by
  refine ⟨rfl, ?_⟩
  intro h
  simp [signalerRun] at h

/-- C9 amended: the loop reads the phase flag before every indicator
emission and terminates as soon as a read returns false, never looking at
the rest of the schedule; but an emit failure is not swallowed or logged
inside the loop: it terminates the signaler coroutine with that exception
(the pipeline is only shielded from it because the signaler runs as a
separate task that is never awaited). -/
theorem signaler_flag_gating (s1 s2 : List (Bool × Except String Unit))
    (em : Except String Unit) (e : String)
    (h : ∀ x ∈ s1, x.1 = true ∧ x.2 = Except.ok ()) :
    signalerRun (s1 ++ (false, em) :: s2) = (s1.length, Except.ok ()) ∧
    signalerRun (s1 ++ (true, Except.error e) :: s2) =
      (s1.length + 1, Except.error e) := by
  induction s1 with
  | nil => simp [signalerRun]
  | cons x xs ih =>
    obtain ⟨hx1, hx2⟩ := h x (by simp)
    obtain ⟨l, r⟩ := ih (fun y hy => h y (by simp [hy]))
    rcases x with ⟨fl, emx⟩
    simp only at hx1 hx2
    subst hx1
    subst hx2
    constructor
    · simp [signalerRun, l]
    · simp [signalerRun, r]

/-- Witness for signaler_flag_gating: two successful pings before the flag
clears give exactly two emissions, and an emit failure on the third
iteration ends the loop with that exception. -/
theorem signaler_flag_gating_witness :
    signalerRun [(true, Except.ok ()), (true, Except.ok ()),
        (false, Except.ok ())] = (2, Except.ok ()) ∧
    signalerRun [(true, Except.ok ()), (true, Except.ok ()),
        (true, Except.error "boom")] = (3, Except.error "boom") :=
  signaler_flag_gating [(true, Except.ok ()), (true, Except.ok ())] []
    (Except.ok ()) "boom"
    (by intro x hx; simp only [List.mem_cons, List.not_mem_nil, or_false] at hx
        rcases hx with rfl | rfl <;> exact ⟨rfl, rfl⟩)

/-- C5: a choice event arriving when no pending YouTube URL is stored ends
the flow without invoking acquisition: the handler clears nothing, never
emits a download effect for any URL or format, and (when the edit call
succeeds) reports the session-expired error message. -/
theorem expired_selection_no_download (cbData : String) (env : BHEnv) :
    (button_handler cbData none env).1 = none ∧
    (∀ u f, Eff.download u f ∉ (button_handler cbData none env).2) ∧
    (env.editExpiredOk = true →
      Eff.editButtonMsg expiredText ∈ (button_handler cbData none env).2) := by
  cases he : env.editExpiredOk <;> simp [button_handler, he]

/-- C2: for every quality ceiling offered by the keyboard, the format spec
the quality-choice handler builds is an ordered preference list of four
alternatives: the first demands the exact mp4 container and carries
exactly the ceiling as its height constraint, every later alternative
abandons the exact-container demand, the second and third still cap the
height at the ceiling, the final alternative is the unrestricted best with
no height constraint, the constraint strength degrades monotonically along
the list, and every declared height ceiling anywhere in the list is at
most the chosen ceiling. -/
theorem quality_format_preference (q : Nat) (hq : q ∈ qualityChoices) :
    (formatAlternatives (buildQualityFormat (Nat.repr q))).length = 4 ∧
    altRequiresMp4
      ((formatAlternatives (buildQualityFormat (Nat.repr q))).headD "")
      = true ∧
    altHeightCaps
      ((formatAlternatives (buildQualityFormat (Nat.repr q))).headD "")
      = [q] ∧
    (∀ a ∈ (formatAlternatives (buildQualityFormat (Nat.repr q))).drop 1,
      altRequiresMp4 a = false) ∧
    (∀ a ∈ ((formatAlternatives (buildQualityFormat (Nat.repr q))).drop 1
        ).take 2, altHeightCaps a = [q]) ∧
    (formatAlternatives (buildQualityFormat (Nat.repr q))).getLastD ""
      = "best" ∧
    altHeightCaps
      ((formatAlternatives (buildQualityFormat (Nat.repr q))).getLastD "")
      = [] ∧
    nonIncreasing
      ((formatAlternatives (buildQualityFormat (Nat.repr q))).map altLevel)
      = true ∧
    (∀ a ∈ formatAlternatives (buildQualityFormat (Nat.repr q)),
      ∀ c ∈ altHeightCaps a, c ≤ q) := by
  fin_cases hq <;> decide

/-- Witness for quality_format_preference at the 720 ceiling. -/
theorem quality_format_preference_witness :
    (formatAlternatives (buildQualityFormat (Nat.repr 720))).length = 4 ∧
    altRequiresMp4
      ((formatAlternatives (buildQualityFormat (Nat.repr 720))).headD "")
      = true ∧
    altHeightCaps
      ((formatAlternatives (buildQualityFormat (Nat.repr 720))).headD "")
      = [720] ∧
    (∀ a ∈ (formatAlternatives (buildQualityFormat (Nat.repr 720))).drop 1,
      altRequiresMp4 a = false) ∧
    (∀ a ∈ ((formatAlternatives (buildQualityFormat (Nat.repr 720))).drop 1
        ).take 2, altHeightCaps a = [720]) ∧
    (formatAlternatives (buildQualityFormat (Nat.repr 720))).getLastD ""
      = "best" ∧
    altHeightCaps
      ((formatAlternatives (buildQualityFormat (Nat.repr 720))).getLastD "")
      = [] ∧
    nonIncreasing
      ((formatAlternatives (buildQualityFormat (Nat.repr 720))).map altLevel)
      = true ∧
    (∀ a ∈ formatAlternatives (buildQualityFormat (Nat.repr 720)),
      ∀ c ∈ altHeightCaps a, c ≤ 720) :=
  quality_format_preference 720 (by decide)

/-- Witness for expired_selection_no_download: a quality choice arriving
after the pending URL was cleared performs no acquisition and reports the
session-expired message. -/
theorem expired_selection_no_download_witness :
    (button_handler "yt_quality|720" none
        ⟨true, true, true, true⟩).1 = none ∧
    (∀ u f, Eff.download u f ∉
      (button_handler "yt_quality|720" none ⟨true, true, true, true⟩).2) ∧
    Eff.editButtonMsg expiredText ∈
      (button_handler "yt_quality|720" none ⟨true, true, true, true⟩).2 := by
  obtain ⟨a, b, c⟩ := expired_selection_no_download "yt_quality|720"
    ⟨true, true, true, true⟩
  exact ⟨a, b, c rfl⟩

/-! ### Helper lemmas about the string model -/

theorem isPrefixOf_drop_append (pre : List Char) :
    ∀ t : List Char, pre.isPrefixOf t = true → pre ++ t.drop pre.length = t := by
  induction pre with
  | nil => intro t _; simp
  | cons c cs ih =>
    intro t h
    cases t with
    | nil => simp [List.isPrefixOf] at h
    | cons d ds =>
      simp only [List.isPrefixOf, Bool.and_eq_true, beq_iff_eq] at h
      obtain ⟨h1, h2⟩ := h
      subst h1
      simpa using ih ds h2

theorem string_mk_append (a b : List Char) :
    String.mk a ++ String.mk b = String.mk (a ++ b) := rfl

theorem strStartsWith_reconstruct (p pre : String)
    (h : strStartsWith p pre = true) :
    pre ++ strDrop p pre.length = p := by
  rcases p with ⟨pl⟩
  rcases pre with ⟨prl⟩
  unfold strStartsWith at h
  unfold strDrop
  have hd := isPrefixOf_drop_append prl pl h
  calc String.mk prl ++ String.mk (String.toList ⟨pl⟩ |>.drop (String.length ⟨prl⟩))
      = String.mk (prl ++ pl.drop prl.length) := rfl
    _ = String.mk pl := by rw [hd]

theorem strIsEmpty_join_false (root f : String) :
    strIsEmpty (root ++ "/" ++ f) = false := by
  rcases root with ⟨rl⟩
  rcases f with ⟨fl⟩
  show (String.mk (rl ++ ['/'] ++ fl)).toList.isEmpty = false
  induction rl with
  | nil => rfl
  | cons c cs _ => rfl

theorem listdir_mem_reconstruct (fs : List String) (root f : String)
    (h : f ∈ listdir fs root) : root ++ "/" ++ f ∈ fs := by
  unfold listdir at h
  rw [List.mem_filterMap] at h
  obtain ⟨p, hp, hpf⟩ := h
  by_cases hsw : strStartsWith p (root ++ "/") = true
  · rw [if_pos hsw] at hpf
    have hf : f = strDrop p (root ++ "/").length := by
      exact (Option.some.injEq _ _).mp hpf.symm
    subst hf
    rw [strStartsWith_reconstruct p (root ++ "/") hsw]
    exact hp
  · rw [if_neg hsw] at hpf
    exact absurd hpf (by simp)

/-- The first manifest entry, as the candidate-selection step reads it. -/
theorem manifest_head_eq (i : InfoDict) :
    (match i.requested_downloads with
      | [] => (none : Option String)
      | d :: _ => d) = i.requested_downloads.headD none := by
  cases i.requested_downloads <;> rfl

/-- If the selected candidate is truthy and on disk, locate returns it. -/
theorem locate_of_candidate (info : Option InfoDict) (fs : List String)
    (root tmpl p : String)
    (hc : locateCandidate info fs root tmpl = some p)
    (he : strIsEmpty p = false) (hm : p ∈ fs) :
    locate info fs root tmpl = Except.ok p := by
  unfold locate
  rw [hc]
  simp [he, hm]

/-- C3: when the download manifest reports an explicit filepath on its
first entry, the candidate-selection step chooses exactly that path,
whatever the top-level filepath and internal-filename fields, the
template, and the storage-root contents are; and when that path exists the
locator returns it. -/
theorem locator_manifest_priority (i : InfoDict) (fs : List String)
    (root tmpl p : String)
    (h1 : i.requested_downloads.headD none = some p)
    (h2 : strIsEmpty p = false) :
    locateCandidate (some i) fs root tmpl = some p ∧
    (p ∈ fs → locate (some i) fs root tmpl = Except.ok p) := by
  have h1' : i.requested_downloads.head?.getD none = some p := by
    rw [← List.headD_eq_head?]
    exact h1
  have hc : locateCandidate (some i) fs root tmpl = some p := by
    unfold locateCandidate
    simp [manifest_head_eq, List.headD_eq_head?, h1', pyTruthy, h2]
  exact ⟨hc, fun hm => locate_of_candidate (some i) fs root tmpl p hc h2 hm⟩

/-- Witness for locator_manifest_priority: the manifest path wins over a
conflicting top-level filepath, a resolvable template and a scannable
storage root. -/
theorem locator_manifest_priority_witness :
    locateCandidate
      (some { emptyInfo with
        requested_downloads := [some "./downloads/a.mp3"]
        filepath := some "./downloads/b.mp3"
        ext := some "mp3" })
      ["./downloads/a.mp3", "./downloads/b.mp3", "./downloads/u1.mp3"]
      "./downloads" (tmplOf "u1") = some "./downloads/a.mp3" ∧
    locate
      (some { emptyInfo with
        requested_downloads := [some "./downloads/a.mp3"]
        filepath := some "./downloads/b.mp3"
        ext := some "mp3" })
      ["./downloads/a.mp3", "./downloads/b.mp3", "./downloads/u1.mp3"]
      "./downloads" (tmplOf "u1") = Except.ok "./downloads/a.mp3" := by
  obtain ⟨a, b⟩ := locator_manifest_priority
    { emptyInfo with
      requested_downloads := [some "./downloads/a.mp3"]
      filepath := some "./downloads/b.mp3"
      ext := some "mp3" }
    ["./downloads/a.mp3", "./downloads/b.mp3", "./downloads/u1.mp3"]
    "./downloads" (tmplOf "u1") "./downloads/a.mp3" rfl rfl
  exact ⟨a, b (by simp)⟩

/-- C4 counterexample: the acquisition result declares no filepath and no
internal filename but does declare extension mp4, while the file the
engine produced is the matching uuid-prefixed ./downloads/u1.mp3.  The
reconstructed template path ./downloads/u1.mp4 does not exist, a file
whose name starts with the unique prefix does exist and the scan would
have found it, yet the locator raises file-not-found: the scan only runs
when the substituted template still contains the placeholder or equals the
raw template, not when the reconstructed path is missing. -/
theorem locator_uuid_scan_cex :
    locate (some { emptyInfo with ext := some "mp4" })
        ["./downloads/u1.mp3"] "./downloads" (tmplOf "u1")
      = Except.error () ∧
    (listdir ["./downloads/u1.mp3"] "./downloads").find?
        (fun n => strStartsWith n (uuidPartOf (tmplOf "u1")))
      = some "u1.mp3" ∧
    "./downloads/u1.mp4" ∉ (["./downloads/u1.mp3"] : List String) := by
  exact ⟨rfl, rfl, by decide⟩

/-- C4 amended: the fallback scan is reached only when the template
placeholder stays unresolved, which happens exactly when the result
declares no truthy extension.  In that situation, with no manifest path
and no top-level filepath or internal filename, the locator returns the
first storage-root entry whose name begins with the unique prefix of the
template; and whenever candidate selection produces nothing the locator
fails with file-not-found.  When an extension is declared but the
reconstructed path does not exist, the locator does not scan (see the
counterexample). -/
theorem locator_uuid_scan_amended (i : InfoDict) (fs : List String)
    (root tmpl f : String)
    (h0 : pyTruthy (i.requested_downloads.headD none) = false)
    (h1 : pyTruthy i.filepath = false)
    (h2 : pyTruthy i.filename = false)
    (h3 : pyTruthy i.ext = false)
    (h4 : strIsEmpty tmpl = false)
    (h5 : (listdir fs root).find?
      (fun n => strStartsWith n (uuidPartOf tmpl)) = some f) :
    locate (some i) fs root tmpl = Except.ok (root ++ "/" ++ f) ∧
    (∀ i2 fs2 root2 tmpl2,
      locateCandidate (some i2) fs2 root2 tmpl2 = none →
      locate (some i2) fs2 root2 tmpl2 = Except.error ()) := by
  have h0' : pyTruthy (i.requested_downloads.head?.getD none) = false := by
    rw [← List.headD_eq_head?]
    exact h0
  have hc : locateCandidate (some i) fs root tmpl
      = some (root ++ "/" ++ f) := by
    unfold locateCandidate
    simp [manifest_head_eq, List.headD_eq_head?, pyOr, h0', h1, h2, h3, h4,
      h5]
  have hfmem : f ∈ listdir fs root := List.mem_of_find?_eq_some h5
  have hm : root ++ "/" ++ f ∈ fs := listdir_mem_reconstruct fs root f hfmem
  refine ⟨locate_of_candidate (some i) fs root tmpl (root ++ "/" ++ f) hc
    (strIsEmpty_join_false root f) hm, ?_⟩
  intro i2 fs2 root2 tmpl2 hnone
  unfold locate
  rw [hnone]

/-- Witness for locator_uuid_scan_amended: with no declared extension and
no reported paths, the scan finds the uuid-prefixed file on disk. -/
theorem locator_uuid_scan_witness :
    locate (some emptyInfo) ["./downloads/u1.mp3"] "./downloads"
      (tmplOf "u1") = Except.ok "./downloads/u1.mp3" := by
  have h := (locator_uuid_scan_amended emptyInfo ["./downloads/u1.mp3"]
    "./downloads" (tmplOf "u1") "u1.mp3" rfl rfl rfl rfl rfl rfl).1
  exact h

/-! ### Helper lemmas about the pipeline model -/

/-- An effect that is neither a cleanup invocation, nor a file removal,
nor a deletion of the original request message. -/
def effClean (e : Eff) : Prop :=
  isCleanupCall e = false ∧ isRemoveFile e = false ∧
    e ≠ Eff.deleteOriginalMsg

theorem deliver_step_state (env : Env) (ft : FileType) (st : PipeState) :
    (deliver_step env ft st).1 = { st with uploading := false } := rfl

theorem deliver_step_effs_clean (env : Env) (ft : FileType) (st : PipeState) :
    ∀ e ∈ (deliver_step env ft st).2.1, effClean e := by
  intro e he
  unfold deliver_step at he
  cases hse : env.sendErr <;> cases hde : env.deleteStatusErr <;>
    cases hef : env.editSendFailOk <;> cases ft <;>
    simp_all [effClean, isCleanupCall, isRemoveFile] <;>
    (rcases he with rfl | rfl <;> simp [isCleanupCall, isRemoveFile])

theorem deliver_step_verbs (env : Env) (ft : FileType) (st : PipeState) :
    (Eff.sendVideoVerb ∈ (deliver_step env ft st).2.1 ↔ ft = FileType.video) ∧
    (Eff.sendAudioVerb ∈ (deliver_step env ft st).2.1 ↔ ft = FileType.audio) := by
  unfold deliver_step
  cases hse : env.sendErr <;> cases hde : env.deleteStatusErr <;>
    cases hef : env.editSendFailOk <;> cases ft <;> simp_all

theorem handle_outcome_effs_tame (env : Env) (msgId : Option Nat)
    (oc : TryOutcome) :
    ∀ e ∈ (handle_outcome env msgId oc).1,
      effClean e ∧ e ≠ Eff.sendAudioVerb ∧ e ≠ Eff.sendVideoVerb ∧
        e ≠ Eff.deleteStatusMsg := by
  intro e he
  unfold handle_outcome at he
  cases oc <;> cases hU : env.editUnexpectedOk <;> cases msgId <;>
    cases hS : env.sendNewMsgOk <;> cases hD : env.editDlErrOk <;>
    cases hF : env.editFnfOk <;>
    simp_all [effClean, isCleanupCall, isRemoveFile]

theorem cleanup_file_effs_removes (path : Option String) (fs : List String)
    (removeFails : Bool) :
    (∀ e ∈ (cleanup_file path fs removeFails).2.1,
      isRemoveFile e = true ∧ isCleanupCall e = false) ∧
    (cleanup_file path fs removeFails).2.1.length ≤ 1 := by
  rcases path with _ | p
  · simp [cleanup_file]
  · cases he : strIsEmpty p <;> by_cases hm : p ∈ fs <;>
      cases removeFails <;>
      simp_all [cleanup_file, osRemove, isRemoveFile, isCleanupCall]

theorem locate_ok_facts (info : Option InfoDict) (fs : List String)
    (root tmpl p : String) (h : locate info fs root tmpl = Except.ok p) :
    strIsEmpty p = false ∧ p ∈ fs := by
  unfold locate at h
  cases hc : locateCandidate info fs root tmpl with
  | none => rw [hc] at h; exact absurd h (by simp)
  | some q =>
    rw [hc] at h
    dsimp only at h
    by_cases he : strIsEmpty q = true
    · rw [if_pos he] at h
      exact absurd h (by simp)
    · rw [if_neg he] at h
      by_cases hm : q ∈ fs
      · rw [if_pos hm] at h
        have hqp : q = p := by
          simpa using h
        subst hqp
        exact ⟨by simpa using he, hm⟩
      · rw [if_neg hm] at h
        exact absurd h (by simp)

theorem main_body_effs_clean (env : Env) (fmt : String) (st1 : PipeState)
    (tmpl : String) :
    ∀ e ∈ (main_body env fmt st1 tmpl).effs, effClean e := by
  intro e he
  unfold main_body at he
  by_cases hD : env.editDownloadingOk = false
  · rw [if_pos hD] at he
    simp at he
  · rw [if_neg hD] at he
    cases hA : env.acqResult with
    | error m =>
      rw [hA] at he
      dsimp only at he
      simp at he
      subst he
      exact ⟨rfl, rfl, fun hcon => Eff.noConfusion hcon⟩
    | ok info =>
      rw [hA] at he
      dsimp only at he
      cases hL : locate info env.fsAfterAcq DOWNLOAD_PATH tmpl with
      | error u =>
        rw [hL] at he
        dsimp only at he
        simp at he
        subst he
        exact ⟨rfl, rfl, fun hcon => Eff.noConfusion hcon⟩
      | ok p =>
        rw [hL] at he
        dsimp only at he
        by_cases hU : env.editUploadingOk = false
        · rw [if_pos hU] at he
          simp at he
          subst he
          exact ⟨rfl, rfl, fun hcon => Eff.noConfusion hcon⟩
        · rw [if_neg hU] at he
          dsimp only at he
          simp only [List.cons_append, List.nil_append, List.mem_cons,
            List.mem_append] at he
          rcases he with rfl | rfl | he
          · exact ⟨rfl, rfl, fun hcon => Eff.noConfusion hcon⟩
          · exact ⟨rfl, rfl, fun hcon => Eff.noConfusion hcon⟩
          · exact deliver_step_effs_clean env (inferFileType fmt) _ e he

theorem main_body_dlPath_some (env : Env) (fmt : String) (st1 : PipeState)
    (tmpl : String) (p : String)
    (h : (main_body env fmt st1 tmpl).dlPath = some p) :
    (main_body env fmt st1 tmpl).st.fs = env.fsAfterAcq ∧
    strIsEmpty p = false ∧ p ∈ env.fsAfterAcq := by
  unfold main_body at h ⊢
  by_cases hD : env.editDownloadingOk = false
  · rw [if_pos hD] at h
    exact absurd h (by simp)
  · rw [if_neg hD] at h ⊢
    cases hA : env.acqResult with
    | error m =>
      rw [hA] at h
      dsimp only at h
      exact absurd h (by simp)
    | ok info =>
      rw [hA] at h
      dsimp only at h ⊢
      cases hL : locate info env.fsAfterAcq DOWNLOAD_PATH tmpl with
      | error u =>
        rw [hL] at h
        dsimp only at h
        exact absurd h (by simp)
      | ok q =>
        rw [hL] at h
        dsimp only at h ⊢
        have hfacts := locate_ok_facts info env.fsAfterAcq DOWNLOAD_PATH
          tmpl q hL
        have hqp : q = p := by
          by_cases hU : env.editUploadingOk = false
          · rw [if_pos hU] at h
            simpa using h
          · rw [if_neg hU] at h
            dsimp only at h
            simpa using h
        subst hqp
        by_cases hU : env.editUploadingOk = false
        · rw [if_pos hU]
          exact ⟨rfl, hfacts.1, hfacts.2⟩
        · rw [if_neg hU]
          dsimp only
          rw [deliver_step_state]
          exact ⟨rfl, hfacts.1, hfacts.2⟩

theorem main_body_delivery_effs (env : Env) (fmt : String) (st1 : PipeState)
    (tmpl : String) (info : Option InfoDict) (p : String)
    (hD : env.editDownloadingOk = true)
    (hA : env.acqResult = Except.ok info)
    (hL : locate info env.fsAfterAcq DOWNLOAD_PATH tmpl = Except.ok p)
    (hU : env.editUploadingOk = true) :
    (main_body env fmt st1 tmpl).effs =
      Eff.editStatus downloadingText ::
        Eff.editStatus (uploadingText (inferFileType fmt)) ::
        (deliver_step env (inferFileType fmt)
          { fs := env.fsAfterAcq, processing := false
            uploading := true }).2.1 := by
  unfold main_body
  rw [if_neg (by rw [hD]; exact fun hcon => Bool.noConfusion hcon), hA]
  dsimp only
  rw [hL]
  dsimp only
  rw [if_neg (by rw [hU]; exact fun hcon => Bool.noConfusion hcon)]
  dsimp only
  rfl

theorem cleanup_file_removes (p : String) (fs : List String)
    (he : strIsEmpty p = false) (hm : p ∈ fs) :
    (cleanup_file (some p) fs false).1 = fs.erase p := by
  simp [cleanup_file, osRemove, he, hm]

theorem download_media_trace (env : Env) (msgId : Option Nat)
    (fmt uuid : String) (st0 : PipeState) :
    (download_media env msgId fmt uuid st0).2.1 =
      (main_body env fmt { st0 with processing := true } (tmplOf uuid)).effs
        ++ (handle_outcome env msgId
          (main_body env fmt { st0 with processing := true }
            (tmplOf uuid)).outcome).1
        ++ (Eff.cleanupCall
            (main_body env fmt { st0 with processing := true }
              (tmplOf uuid)).dlPath ::
          (cleanup_file
            (main_body env fmt { st0 with processing := true }
              (tmplOf uuid)).dlPath
            (main_body env fmt { st0 with processing := true }
              (tmplOf uuid)).st.fs
            env.removeFails).2.1) := rfl

theorem download_media_fs (env : Env) (msgId : Option Nat)
    (fmt uuid : String) (st0 : PipeState) :
    (download_media env msgId fmt uuid st0).1.fs =
      (cleanup_file
        (main_body env fmt { st0 with processing := true }
          (tmplOf uuid)).dlPath
        (main_body env fmt { st0 with processing := true }
          (tmplOf uuid)).st.fs
        env.removeFails).1 := rfl

theorem download_media_cleanup_count (env : Env) (msgId : Option Nat)
    (fmt uuid : String) (st0 : PipeState) :
    (download_media env msgId fmt uuid st0).2.1.countP isCleanupCall = 1 ∧
    (download_media env msgId fmt uuid st0).2.1.countP isRemoveFile ≤ 1 := by
  rw [download_media_trace]
  have hb0 : ∀ e ∈ (main_body env fmt { st0 with processing := true }
      (tmplOf uuid)).effs, effClean e :=
    main_body_effs_clean env fmt _ _
  have hh0 := handle_outcome_effs_tame env msgId
    (main_body env fmt { st0 with processing := true } (tmplOf uuid)).outcome
  have hc0 := cleanup_file_effs_removes
    (main_body env fmt { st0 with processing := true } (tmplOf uuid)).dlPath
    (main_body env fmt { st0 with processing := true } (tmplOf uuid)).st.fs
    env.removeFails
  constructor
  · rw [List.countP_append, List.countP_append, List.countP_cons_of_pos]
    · have h1 : List.countP isCleanupCall (main_body env fmt
          { st0 with processing := true } (tmplOf uuid)).effs = 0 := by
        rw [List.countP_eq_zero]
        intro a ha
        simp [(hb0 a ha).1]
      have h2 : List.countP isCleanupCall (handle_outcome env msgId
          (main_body env fmt { st0 with processing := true }
            (tmplOf uuid)).outcome).1 = 0 := by
        rw [List.countP_eq_zero]
        intro a ha
        simp [(hh0 a ha).1.1]
      have h3 : List.countP isCleanupCall (cleanup_file
          (main_body env fmt { st0 with processing := true }
            (tmplOf uuid)).dlPath
          (main_body env fmt { st0 with processing := true }
            (tmplOf uuid)).st.fs
          env.removeFails).2.1 = 0 := by
        rw [List.countP_eq_zero]
        intro a ha
        simp [(hc0.1 a ha).2]
      omega
    · rfl
  · rw [List.countP_append, List.countP_append, List.countP_cons_of_neg]
    · have h1 : List.countP isRemoveFile (main_body env fmt
          { st0 with processing := true } (tmplOf uuid)).effs = 0 := by
        rw [List.countP_eq_zero]
        intro a ha
        simp [(hb0 a ha).2.1]
      have h2 : List.countP isRemoveFile (handle_outcome env msgId
          (main_body env fmt { st0 with processing := true }
            (tmplOf uuid)).outcome).1 = 0 := by
        rw [List.countP_eq_zero]
        intro a ha
        simp [((hh0 a ha).1).2.1]
      have h3 := List.countP_le_length (l := (cleanup_file
          (main_body env fmt { st0 with processing := true }
            (tmplOf uuid)).dlPath
          (main_body env fmt { st0 with processing := true }
            (tmplOf uuid)).st.fs
          env.removeFails).2.1) (p := isRemoveFile)
      have h4 := hc0.2
      omega
    · simp [isRemoveFile]

theorem download_media_no_orig (env : Env) (msgId : Option Nat)
    (fmt uuid : String) (st0 : PipeState) :
    Eff.deleteOriginalMsg ∉ (download_media env msgId fmt uuid st0).2.1 := by
  rw [download_media_trace]
  intro hmem
  simp only [List.mem_append, List.mem_cons] at hmem
  rcases hmem with (hb | hh) | hc | hcl
  · exact (main_body_effs_clean env fmt _ _ _ hb).2.2 rfl
  · exact ((handle_outcome_effs_tame env msgId _ _ hh).1).2.2 rfl
  · exact Eff.noConfusion hc
  · have := (cleanup_file_effs_removes _ _ _).1 _ hcl
    simp [isRemoveFile] at this

/-! ### Concrete environments for witnesses and counterexamples -/

/-- A fully successful run: the engine reports the produced file in the
download manifest and the file is on disk. -/
def okRunEnv : Env :=
  { baseEnv with
    acqResult := Except.ok (some { emptyInfo with
      requested_downloads := [some "./downloads/u1.mp3"] })
    fsAfterAcq := ["./downloads/u1.mp3"] }

/-- A run in which the engine succeeds and writes ./downloads/u1.mp3 but
reports only extension mp4 and no path, so the locator fails. -/
def lostFileEnv : Env :=
  { baseEnv with
    acqResult := Except.ok (some { emptyInfo with ext := some "mp4" })
    fsAfterAcq := ["./downloads/u1.mp3"] }

/-- The initial pipeline state: empty storage root, both flags down. -/
def st0Run : PipeState := { fs := [], processing := false, uploading := false }

/-- A run in which the send fails and the classify edit fails too. -/
def escapesEnv : Env :=
  { baseEnv with sendErr := some "boom", editSendFailOk := false }

/-- The successful-locator run with a failing send and failing classify
edit. -/
def escapesRunEnv : Env :=
  { okRunEnv with sendErr := some "boom", editSendFailOk := false }

/-- The successful-locator run whose send fails with the oversized-entity
message. -/
def tooLargeEnv : Env :=
  { okRunEnv with sendErr := some "Request Entity Too Large" }

/-! ### Pipeline claims -/

/-- C1 counterexample: the locate phase fails while the engine did create
a file (it reported extension mp4 with no path and produced
./downloads/u1.mp3, the situation of the C4 counterexample).  The
downloaded-file variable is still none when the finally clause runs, so
cleanup_file is a no-op: after the pipeline returns the transient file is
still in the storage root and no removal happened at all, against the
claimed absent-and-removed-exactly-once. -/
theorem pipeline_cleanup_cex :
    "./downloads/u1.mp3" ∈
      (download_media lostFileEnv none "bestaudio/best" "u1" st0Run).1.fs ∧
    (download_media lostFileEnv none "bestaudio/best" "u1"
      st0Run).2.1.countP isRemoveFile = 0 := by
  exact ⟨by decide, by decide⟩

/-- C1 amended: on every execution and every failure pattern, after
download_media returns the processing and uploading flags are false,
cleanup_file is invoked exactly once, at most one file removal happens,
and whenever the cleanup was invoked on a determined path (which the
locator guaranteed to exist) with the removal not raising OSError, that
file is absent from the storage root.  When the locator failed, cleanup
runs on none and a file the engine created can survive (see the
counterexample). -/
theorem pipeline_cleanup_amended (env : Env) (msgId : Option Nat)
    (fmt uuid : String) (st0 : PipeState)
    (hnd : env.fsAfterAcq.Nodup) (hrm : env.removeFails = false) :
    (download_media env msgId fmt uuid st0).1.processing = false ∧
    (download_media env msgId fmt uuid st0).1.uploading = false ∧
    (download_media env msgId fmt uuid st0).2.1.countP isCleanupCall = 1 ∧
    (download_media env msgId fmt uuid st0).2.1.countP isRemoveFile ≤ 1 ∧
    (∀ p, Eff.cleanupCall (some p) ∈
        (download_media env msgId fmt uuid st0).2.1 →
      p ∉ (download_media env msgId fmt uuid st0).1.fs) := by
  refine ⟨rfl, rfl,
    (download_media_cleanup_count env msgId fmt uuid st0).1,
    (download_media_cleanup_count env msgId fmt uuid st0).2, ?_⟩
  intro p hp
  rw [download_media_trace] at hp
  rw [download_media_fs]
  simp only [List.mem_append, List.mem_cons] at hp
  rcases hp with (hb | hh) | hc | hcl
  · exact absurd (main_body_effs_clean env fmt _ _ _ hb).1
      (by simp [isCleanupCall])
  · exact absurd ((handle_outcome_effs_tame env msgId _ _ hh).1).1
      (by simp [isCleanupCall])
  · have hdl : (main_body env fmt { st0 with processing := true }
        (tmplOf uuid)).dlPath = some p := by
      injection hc with h
      exact h.symm
    obtain ⟨hfs, hpe, hpm⟩ := main_body_dlPath_some env fmt
      { st0 with processing := true } (tmplOf uuid) p hdl
    rw [hdl, hfs, hrm, cleanup_file_removes p env.fsAfterAcq hpe hpm]
    intro hin
    exact ((List.Nodup.mem_erase_iff hnd).mp hin).1 rfl
  · have := (cleanup_file_effs_removes _ _ _).1 _ hcl
    simp [isRemoveFile] at this

/-- Witness for pipeline_cleanup_amended on a successful run: flags reset,
one cleanup call, at most one removal, and the located file gone. -/
theorem pipeline_cleanup_witness :
    (download_media okRunEnv none "bestaudio/best" "u1" st0Run).1.processing
        = false ∧
    (download_media okRunEnv none "bestaudio/best" "u1" st0Run).1.uploading
        = false ∧
    (download_media okRunEnv none "bestaudio/best" "u1"
      st0Run).2.1.countP isCleanupCall = 1 ∧
    (download_media okRunEnv none "bestaudio/best" "u1"
      st0Run).2.1.countP isRemoveFile ≤ 1 ∧
    (∀ p, Eff.cleanupCall (some p) ∈
        (download_media okRunEnv none "bestaudio/best" "u1" st0Run).2.1 →
      p ∉ (download_media okRunEnv none "bestaudio/best" "u1"
        st0Run).1.fs) :=
  pipeline_cleanup_amended okRunEnv none "bestaudio/best" "u1" st0Run
    (by decide) rfl

/-- C6 counterexample: the send of the file fails and the status-message
edit carrying the classified explanation fails too.  The edit sits inside
the except clause without a guard, so its exception escapes the delivery
step (the step's result is an error rather than a normal return): the
failure is not swallowed within the delivery step's boundary.  The
pipeline's catch-all clause then absorbs it, and cleanup still runs. -/
theorem send_failure_escapes_cex :
    (deliver_step escapesEnv FileType.audio
      { fs := [], processing := false, uploading := true }).2.2
      = Except.error editFailureMsg ∧
    (download_media escapesRunEnv none "bestaudio/best" "u1"
      st0Run).2.1.countP isCleanupCall = 1 := by
  exact ⟨rfl, by decide⟩

/-- C6 amended: a send failure is classified by message content -
file-too-large when the text mentions Request Entity Too Large, else
upload-timeout when it mentions Timed out, else the generic send failure -
and the status message is edited to the classified explanation; the
uploading flag is always cleared by the finally clause; but the classify
edit is unguarded: when it fails, the delivery step itself ends with that
exception instead of swallowing it, and only the pipeline's catch-all
handler absorbs it.  In every case the pipeline proceeds to cleanup,
invoking it exactly once. -/
theorem send_failure_classified_amended (env : Env) (ft : FileType)
    (st : PipeState) (e : String) (hs : env.sendErr = some e) :
    (deliver_step env ft st).1.uploading = false ∧
    (env.editSendFailOk = true →
      (deliver_step env ft st).2.2 = Except.ok () ∧
      Eff.editStatus (classifySendError e) ∈ (deliver_step env ft st).2.1) ∧
    (env.editSendFailOk = false →
      (deliver_step env ft st).2.2 = Except.error editFailureMsg) ∧
    (strContains e "Request Entity Too Large" = true →
      classifySendError e = tooLargeText) ∧
    (strContains e "Request Entity Too Large" = false →
      strContains e "Timed out" = true →
      classifySendError e = timedOutText) ∧
    (strContains e "Request Entity Too Large" = false →
      strContains e "Timed out" = false →
      classifySendError e = sendFailedText) ∧
    (∀ msgId fmt uuid st0,
      (download_media env msgId fmt uuid st0).2.1.countP isCleanupCall
        = 1) := by
  refine ⟨rfl, ?_, ?_, ?_, ?_, ?_,
    fun msgId fmt uuid st0 =>
      (download_media_cleanup_count env msgId fmt uuid st0).1⟩
  · intro hok
    unfold deliver_step
    rw [hs, hok]
    cases ft <;> simp
  · intro hko
    unfold deliver_step
    rw [hs, hko]
    cases ft <;> simp
  · intro h1
    simp [classifySendError, h1]
  · intro h1 h2
    simp [classifySendError, h1, h2]
  · intro h1 h2
    simp [classifySendError, h1, h2]

/-- Witness for send_failure_classified_amended: an oversized-upload
failure is classified as file-too-large, the status message is edited
accordingly, the step returns normally and the pipeline cleans up once. -/
theorem send_failure_classified_witness :
    (deliver_step tooLargeEnv FileType.audio
      { fs := [], processing := false, uploading := true }).1.uploading
      = false ∧
    (deliver_step tooLargeEnv FileType.audio
      { fs := [], processing := false, uploading := true }).2.2
      = Except.ok () ∧
    Eff.editStatus tooLargeText ∈
      (deliver_step tooLargeEnv FileType.audio
        { fs := [], processing := false, uploading := true }).2.1 ∧
    (download_media tooLargeEnv none "bestaudio/best"
      "u1" st0Run).2.1.countP isCleanupCall = 1 := by
  obtain ⟨a, b, _, c, _, _, d⟩ := send_failure_classified_amended
    tooLargeEnv
    FileType.audio { fs := [], processing := false, uploading := true }
    "Request Entity Too Large" rfl
  obtain ⟨b1, b2⟩ := b rfl
  refine ⟨a, b1, ?_, d none "bestaudio/best" "u1" st0Run⟩
  rw [← c (by decide)]
  exact b2

/-- C7 counterexample: a fully successful delivery (manifest path found,
send succeeded).  The transient status message is deleted, but no deletion
of the user's original request message occurs anywhere in the run's trace:
download_media contains no such call (the button handler later deletes
only its own prompt message, not the original request). -/
theorem no_original_delete_cex :
    Eff.sendAudioVerb ∈
      (download_media okRunEnv none "bestaudio/best" "u1" st0Run).2.1 ∧
    Eff.deleteStatusMsg ∈
      (download_media okRunEnv none "bestaudio/best" "u1" st0Run).2.1 ∧
    Eff.deleteOriginalMsg ∉
      (download_media okRunEnv none "bestaudio/best" "u1" st0Run).2.1 := by
  exact ⟨by decide, by decide, by decide⟩

/-- C7 amended: when the send succeeds (and so does the delete call on the
status message, which sits inside the same try block), the delivery step
deletes the transient status message and returns normally; the user's
original request message is never deleted - no execution of download_media
emits such a deletion. -/
theorem success_delete_status_amended (env : Env) (ft : FileType)
    (st : PipeState) (hs : env.sendErr = none)
    (hd : env.deleteStatusErr = none) :
    (deliver_step env ft st).2.2 = Except.ok () ∧
    Eff.deleteStatusMsg ∈ (deliver_step env ft st).2.1 ∧
    (∀ env2 msgId fmt uuid st0,
      Eff.deleteOriginalMsg ∉
        (download_media env2 msgId fmt uuid st0).2.1) := by
  refine ⟨?_, ?_, fun env2 msgId fmt uuid st0 =>
    download_media_no_orig env2 msgId fmt uuid st0⟩
  · unfold deliver_step
    rw [hs, hd]
  · unfold deliver_step
    rw [hs, hd]
    cases ft <;> simp

/-- Witness for success_delete_status_amended on the successful run. -/
theorem success_delete_status_witness :
    (deliver_step okRunEnv FileType.audio
      { fs := ["./downloads/u1.mp3"], processing := false
        uploading := true }).2.2 = Except.ok () ∧
    Eff.deleteStatusMsg ∈ (deliver_step okRunEnv FileType.audio
      { fs := ["./downloads/u1.mp3"], processing := false
        uploading := true }).2.1 ∧
    (∀ env2 msgId fmt uuid st0,
      Eff.deleteOriginalMsg ∉
        (download_media env2 msgId fmt uuid st0).2.1) :=
  success_delete_status_amended okRunEnv FileType.audio
    { fs := ["./downloads/u1.mp3"], processing := false, uploading := true }
    rfl rfl

/-- C8: on every run that reaches the delivery step, the transport verb
recorded in the trace is the video verb exactly when the media kind
inferred from the format spec is video, and the audio verb exactly when it
is audio, for every located path whatsoever - the located file never
influences the kind; and the inferred kind is video precisely when the
format spec starts with bv, bestvideo or mp4. -/
theorem media_kind_from_format (env : Env) (msgId : Option Nat)
    (fmt uuid : String) (st0 : PipeState) (info : Option InfoDict)
    (p : String)
    (hD : env.editDownloadingOk = true)
    (hA : env.acqResult = Except.ok info)
    (hL : locate info env.fsAfterAcq DOWNLOAD_PATH (tmplOf uuid)
      = Except.ok p)
    (hU : env.editUploadingOk = true) :
    (Eff.sendVideoVerb ∈ (download_media env msgId fmt uuid st0).2.1 ↔
      inferFileType fmt = FileType.video) ∧
    (Eff.sendAudioVerb ∈ (download_media env msgId fmt uuid st0).2.1 ↔
      inferFileType fmt = FileType.audio) ∧
    (∀ s, inferFileType s = FileType.video ↔
      (strStartsWith s "bv" || strStartsWith s "bestvideo"
        || strStartsWith s "mp4") = true) := by
  have htr := download_media_trace env msgId fmt uuid st0
  have hb := main_body_delivery_effs env fmt
    { st0 with processing := true } (tmplOf uuid) info p hD hA hL hU
  have hh := handle_outcome_effs_tame env msgId
    (main_body env fmt { st0 with processing := true } (tmplOf uuid)).outcome
  have hcl := cleanup_file_effs_removes
    (main_body env fmt { st0 with processing := true } (tmplOf uuid)).dlPath
    (main_body env fmt { st0 with processing := true } (tmplOf uuid)).st.fs
    env.removeFails
  have hdv := deliver_step_verbs env (inferFileType fmt)
    { fs := env.fsAfterAcq, processing := false, uploading := true }
  have hmem : ∀ v : Eff, v = Eff.sendVideoVerb ∨ v = Eff.sendAudioVerb →
      (v ∈ (download_media env msgId fmt uuid st0).2.1 ↔
        v ∈ (deliver_step env (inferFileType fmt)
          { fs := env.fsAfterAcq, processing := false
            uploading := true }).2.1) := by
    intro v hv
    rw [htr, hb]
    simp only [List.mem_append, List.mem_cons]
    constructor
    · intro hin
      rcases hin with (hx | hx) | hx | hx
      · rcases hx with rfl | rfl | hx
        · rcases hv with hv | hv <;> exact absurd hv (by simp)
        · rcases hv with hv | hv <;> exact absurd hv (by simp)
        · exact hx
      · rcases hv with rfl | rfl
        · exact absurd rfl (hh _ hx).2.2.1
        · exact absurd rfl (hh _ hx).2.1
      · rcases hv with rfl | rfl <;> exact absurd hx (by simp)
      · have := (hcl.1 v hx).1
        rcases hv with rfl | rfl <;> simp [isRemoveFile] at this
    · intro hin
      exact Or.inl (Or.inl (Or.inr (Or.inr hin)))
  refine ⟨?_, ?_, ?_⟩
  · rw [hmem Eff.sendVideoVerb (Or.inl rfl)]
    exact hdv.1
  · rw [hmem Eff.sendAudioVerb (Or.inr rfl)]
    exact hdv.2
  · intro s
    unfold inferFileType
    by_cases hcond : (strStartsWith s "bv" || strStartsWith s "bestvideo"
        || strStartsWith s "mp4") = true
    · simp [hcond]
    · simp only [Bool.not_eq_true] at hcond
      simp [hcond]

/-- Witness for media_kind_from_format: the successful audio run uses the
audio verb because its spec bestaudio/best has no video prefix. -/
theorem media_kind_from_format_witness :
    (Eff.sendVideoVerb ∈
      (download_media okRunEnv none "bestaudio/best" "u1" st0Run).2.1 ↔
      inferFileType "bestaudio/best" = FileType.video) ∧
    (Eff.sendAudioVerb ∈
      (download_media okRunEnv none "bestaudio/best" "u1" st0Run).2.1 ↔
      inferFileType "bestaudio/best" = FileType.audio) ∧
    (∀ s, inferFileType s = FileType.video ↔
      (strStartsWith s "bv" || strStartsWith s "bestvideo"
        || strStartsWith s "mp4") = true) :=
  media_kind_from_format okRunEnv none "bestaudio/best" "u1" st0Run
    (some { emptyInfo with
      requested_downloads := [some "./downloads/u1.mp3"] })
    "./downloads/u1.mp3" rfl rfl rfl rfl

end Bot
